import Mathlib

/-!
Shallow embedding of the sportcars-xmcp tool handlers.

The repository is a set of request handlers over a single `vehicles`
table in a relational store plus an S3-compatible object store:
`get-vehicles` (src/src/tools/get-vehicles.ts and the extended variant),
`update-vehicles` (src/src/tools/update-vehicles.ts),
`add-notes` (src/src/tools/add-notes.ts),
`delete-ai-video` (src/src/tools/delete-ai-video.ts) and
`delete-vehicle` (src/unnamed/part_000).

The store is modelled as a list of rows; a query handler becomes a pure
function from its arguments and the store contents to an outcome record
that carries the result variant, the resulting store contents, and flags
recording which external calls (lookup, mutation, object-store delete)
were issued.  JavaScript truthiness tests (`if (id)`, `filter(Boolean)`)
are modelled explicitly: `0` and `""` are falsy.
-/

namespace SportCars

/-- JS truthiness of an optional number: `undefined`, `0` are falsy. -/
def truthyI : Option Int → Bool
  | none => false
  | some n => n != 0

/-- JS truthiness of an optional string: `undefined`, `""` are falsy. -/
def truthyS : Option String → Bool
  | none => false
  | some s => s != ""

/-- One row of the `vehicles` table; only the columns the handlers touch. -/
structure Vehicle where
  id : Int
  vin : Option String
  stock_number : Option String
  make : Option String
  model : Option String
  year : Option Int
  price : Option Int
  custom_price : Option Int
  colour : Option String
  interior_color : Option String
  description : Option String
  ai_description : Option String
  odometer : Option Int
  new_used : Option String
  certified : Option String
  transmission : Option String
  drivetrain_desc : Option String
  fuel : Option String
  body : Option String
  dealer_name : Option String
  tags : Option String
  inventory_date : Option String
  notes : Option String
  ai_video : Option String
  updated_at : String
  deleted_at : Option String
  deriving DecidableEq, Repr

/-- Character-wise lower-casing of a string's characters (the case
folding `ILIKE` applies). -/
def lowerData (s : String) : List Char := s.data.map Char.toLower

/-- Postgres `col ILIKE '%pat%'` on a nullable column: a NULL column never
matches; otherwise case-insensitive substring containment.
-/
def ilikeContains (col : Option String) (pat : String) : Bool :=
  match col with
  | none => false
  | some s => decide (lowerData pat <:+: lowerData s)

/-- Postgres `col = n` on a nullable integer column. -/
def eqI (col : Option Int) (n : Int) : Bool := col == some n

/-- Postgres `col >= n` on a nullable integer column (NULL never matches). -/
def geI (col : Option Int) (n : Int) : Bool :=
  match col with
  | none => false
  | some x => n ≤ x

/-- Postgres `col <= n` on a nullable integer column (NULL never matches). -/
def leI (col : Option Int) (n : Int) : Bool :=
  match col with
  | none => false
  | some x => x ≤ n

/-- The optional filter arguments of `get-vehicles` (filter section). -/
structure GetVehiclesFilter where
  make : Option String := none
  model : Option String := none
  year : Option Int := none
  minYear : Option Int := none
  maxYear : Option Int := none
  minPrice : Option Int := none
  maxPrice : Option Int := none
  hasPrice : Option Bool := none
  colour : Option String := none
  interiorColor : Option String := none
  newUsed : Option String := none
  certified : Option String := none
  transmission : Option String := none
  drivetrain : Option String := none
  fuel : Option String := none
  maxOdometer : Option Int := none
  body : Option String := none
  dealerName : Option String := none
  deriving Repr

/-- The row predicate accumulated by `getVehicles`
(src/src/tools/get-vehicles.ts lines 81-158): the base query carries
`.is('deleted_at', null)` and each supplied filter appends one predicate.
String filters guard on JS truthiness; `minPrice`/`maxPrice`/`hasPrice`/
`maxOdometer` guard on `!== undefined`.
-/
def getVehiclesMatch (f : GetVehiclesFilter) (v : Vehicle) : Bool :=
  v.deleted_at.isNone
  && (!truthyS f.make || ilikeContains v.make (f.make.getD ""))
  && (!truthyS f.model || ilikeContains v.model (f.model.getD ""))
  && (!truthyI f.year || eqI v.year (f.year.getD 0))
  && (!truthyI f.minYear || geI v.year (f.minYear.getD 0))
  && (!truthyI f.maxYear || leI v.year (f.maxYear.getD 0))
  && (f.minPrice.elim true fun p => geI v.price p)
  && (f.maxPrice.elim true fun p => leI v.price p)
  && (f.hasPrice.elim true fun b => if b then v.price.isSome else v.price.isNone)
  && (!truthyS f.colour || ilikeContains v.colour (f.colour.getD ""))
  && (!truthyS f.interiorColor || ilikeContains v.interior_color (f.interiorColor.getD ""))
  && (!truthyS f.newUsed || ilikeContains v.new_used (f.newUsed.getD ""))
  && (!truthyS f.certified || ilikeContains v.certified (f.certified.getD ""))
  && (!truthyS f.transmission || ilikeContains v.transmission (f.transmission.getD ""))
  && (!truthyS f.drivetrain || ilikeContains v.drivetrain_desc (f.drivetrain.getD ""))
  && (!truthyS f.fuel || ilikeContains v.fuel (f.fuel.getD ""))
  && (f.maxOdometer.elim true fun n => leI v.odometer n)
  && (!truthyS f.body || ilikeContains v.body (f.body.getD ""))
  && (!truthyS f.dealerName || ilikeContains v.dealer_name (f.dealerName.getD ""))

/-- The rows the filtered read returns. -/
def getVehicles (f : GetVehiclesFilter) (db : List Vehicle) : List Vehicle :=
  db.filter (getVehiclesMatch f)

/-! ## update-vehicles (src/src/tools/update-vehicles.ts) -/

/-- The argument record of `update-vehicles`; `none` is an absent field. -/
structure UpdateVehiclesArgs where
  id : Option Int := none
  vin : Option String := none
  stockNumber : Option String := none
  make : Option String := none
  model : Option String := none
  price : Option Int := none
  customPrice : Option Int := none
  colour : Option String := none
  interiorColor : Option String := none
  description : Option String := none
  aiDescription : Option String := none
  odometer : Option Int := none
  newUsed : Option String := none
  certified : Option String := none
  dealerName : Option String := none
  tags : Option String := none
  inventoryDate : Option String := none
  deriving Repr

/-- The assignment set `updateData` built at lines 69-84: one optional
assignment per updatable column (`some x` means the column is assigned
`x`), plus the unconditionally stamped `updated_at`.
-/
structure UpdateData where
  price : Option Int := none
  custom_price : Option Int := none
  colour : Option String := none
  interior_color : Option String := none
  description : Option String := none
  ai_description : Option String := none
  odometer : Option Int := none
  new_used : Option String := none
  certified : Option String := none
  dealer_name : Option String := none
  tags : Option String := none
  inventory_date : Option String := none
  updated_at : String
  deriving DecidableEq, Repr

/-- Lines 73-84: each field present in the request (`!== undefined`)
becomes an assignment, verbatim. -/
def buildUpdateData (a : UpdateVehiclesArgs) (now : String) : UpdateData :=
  { price := a.price
    custom_price := a.customPrice
    colour := a.colour
    interior_color := a.interiorColor
    description := a.description
    ai_description := a.aiDescription
    odometer := a.odometer
    new_used := a.newUsed
    certified := a.certified
    dealer_name := a.dealerName
    tags := a.tags
    inventory_date := a.inventoryDate
    updated_at := now }

/-- Line 87: `Object.keys(updateData).length === 1` — true iff at least
one real field (beyond `updated_at`) was provided. -/
def hasUpdateFields (a : UpdateVehiclesArgs) : Bool :=
  a.price.isSome || a.customPrice.isSome || a.colour.isSome
  || a.interiorColor.isSome || a.description.isSome || a.aiDescription.isSome
  || a.odometer.isSome || a.newUsed.isSome || a.certified.isSome
  || a.dealerName.isSome || a.tags.isSome || a.inventoryDate.isSome

/-- Lines 97-107: some identifier or make/model filter is (truthily)
present, otherwise the request has no target criteria. -/
def hasUpdateTarget (a : UpdateVehiclesArgs) : Bool :=
  truthyI a.id || truthyS a.vin || truthyS a.stockNumber
  || truthyS a.make || truthyS a.model

/-- Lines 94-105: the lookup's row predicate.  The base query carries
`.is('deleted_at', null)`; the identifier chain is strict precedence
(`if (id) ... else if (vin) ... else if (stockNumber) ... else if (make
|| model)`), each guard a JS truthiness test.
-/
def updateLookupPred (a : UpdateVehiclesArgs) (v : Vehicle) : Bool :=
  v.deleted_at.isNone &&
    (if truthyI a.id then v.id == a.id.getD 0
     else if truthyS a.vin then v.vin == a.vin
     else if truthyS a.stockNumber then v.stock_number == a.stockNumber
     else
       (!truthyS a.make || ilikeContains v.make (a.make.getD ""))
       && (!truthyS a.model || ilikeContains v.model (a.model.getD "")))

/-- Applying the assignment set to one row (`.update(updateData)`). -/
def applyUpdateData (u : UpdateData) (v : Vehicle) : Vehicle :=
  { v with
    price := u.price.or v.price
    custom_price := u.custom_price.or v.custom_price
    colour := u.colour.or v.colour
    interior_color := u.interior_color.or v.interior_color
    description := u.description.or v.description
    ai_description := u.ai_description.or v.ai_description
    odometer := u.odometer.or v.odometer
    new_used := u.new_used.or v.new_used
    certified := u.certified.or v.certified
    dealer_name := u.dealer_name.or v.dealer_name
    tags := u.tags.or v.tags
    inventory_date := u.inventory_date.or v.inventory_date
    updated_at := u.updated_at }

inductive UpdateVehiclesResult where
  /-- Line 88: "No fields provided to update." -/
  | noFields
  /-- Line 107: no identifier and no make/model filter. -/
  | noTarget
  /-- Line 118: "No vehicles found matching the specified criteria." -/
  | notFound
  /-- Lines 125-148: success; carries the ids the update targeted. -/
  | updated (ids : List Int)
  deriving DecidableEq, Repr

/-- The observable outcome of one `update-vehicles` invocation. -/
structure UpdateOutcome where
  result : UpdateVehiclesResult
  db : List Vehicle
  lookupPerformed : Bool
  mutationPerformed : Bool
  deriving DecidableEq, Repr

/-- Tool updateVehicles, with the store state at lookup time (`dbLookup`) and
at mutation time (`dbMutate`) split so the read-then-write race of the
spec can be expressed.  The lookup (line 111) runs against `dbLookup`;
the mutation (lines 125-129) runs `.in('id', vehicleIds)` against
`dbMutate`, with `vehicleIds` captured from the lookup result (line 122).
-/
def updateVehiclesRace (a : UpdateVehiclesArgs) (now : String)
    (dbLookup dbMutate : List Vehicle) : UpdateOutcome :=
  if !hasUpdateFields a then ⟨.noFields, dbMutate, false, false⟩
  else if !hasUpdateTarget a then ⟨.noTarget, dbMutate, false, false⟩
  else
    match dbLookup.filter (updateLookupPred a) with
    | [] => ⟨.notFound, dbMutate, true, false⟩
    | vs@(_ :: _) =>
      let ids := vs.map (·.id)
      let u := buildUpdateData a now
      ⟨.updated ids,
       dbMutate.map fun v => if ids.contains v.id then applyUpdateData u v else v,
       true, true⟩

/-- Tool update-vehicles against a store that does not change between the
lookup and the mutation. -/
def updateVehicles (a : UpdateVehiclesArgs) (now : String)
    (db : List Vehicle) : UpdateOutcome :=
  updateVehiclesRace a now db db

/-! ## Shared single-row identifier handling (add-notes, delete-ai-video) -/

/-- The count `[id, vin, stockNumber].filter(Boolean).length` (add-notes line 41,
delete-ai-video line 81). -/
def identCount (id : Option Int) (vin stock : Option String) : Nat :=
  (if truthyI id then 1 else 0) + (if truthyS vin then 1 else 0)
    + (if truthyS stock then 1 else 0)

/-- The identifier filter chain shared by add-notes (lines 64-70) and
delete-ai-video (lines 99-105): `if (id) ... else if (vin) ... else if
(stockNumber)`. -/
def idLookupPred (id : Option Int) (vin stock : Option String)
    (v : Vehicle) : Bool :=
  if truthyI id then v.id == id.getD 0
  else if truthyS vin then v.vin == vin
  else if truthyS stock then v.stock_number == stock
  else true

/-! ## add-notes (src/src/tools/add-notes.ts) -/

structure AddNotesArgs where
  id : Option Int := none
  vin : Option String := none
  stockNumber : Option String := none
  /-- Schema `z.string().nullable().optional()`: outer `none` is absent
  (undefined), `some none` is an explicit null. -/
  notes : Option (Option String) := none
  deriving Repr

/-- The lookup of add-notes: soft-deleted rows excluded (line 61), then
the identifier chain. -/
def addNotesLookupPred (a : AddNotesArgs) (v : Vehicle) : Bool :=
  v.deleted_at.isNone && idLookupPred a.id a.vin a.stockNumber v

inductive AddNotesResult where
  /-- Line 43: no identifier provided. -/
  | noIdentifier
  /-- Line 47: more than one identifier provided. -/
  | ambiguousIdentifier
  /-- Line 52: `notes` missing. -/
  | notesMissing
  /-- Line 81: no matching vehicle. -/
  | notFound
  /-- Line 85: multiple vehicles matched. -/
  | multipleMatches
  /-- Lines 116-120: success; `action` is "deleted"/"updated"/"added",
  `finalNotes` the value written. -/
  | done (action : String) (finalNotes : Option String)
  deriving DecidableEq, Repr

structure AddNotesOutcome where
  result : AddNotesResult
  db : List Vehicle
  lookupPerformed : Bool
  mutationPerformed : Bool
  deriving DecidableEq, Repr

def addNotes (a : AddNotesArgs) (now : String) (db : List Vehicle) :
    AddNotesOutcome :=
  if identCount a.id a.vin a.stockNumber == 0 then ⟨.noIdentifier, db, false, false⟩
  else if identCount a.id a.vin a.stockNumber > 1 then
    ⟨.ambiguousIdentifier, db, false, false⟩
  else
    match a.notes with
    | none => ⟨.notesMissing, db, false, false⟩
    | some notesArg =>
      match db.filter (addNotesLookupPred a) with
      | [] => ⟨.notFound, db, true, false⟩
      | [v] =>
        let notesValue : Option String :=
          match notesArg with
          | none => none
          | some s => if s == "" then none else some s
        let action :=
          if notesValue.isNone then "deleted"
          else if truthyS v.notes then "updated" else "added"
        ⟨.done action notesValue,
         db.map fun w =>
           if w.id == v.id then { w with notes := notesValue, updated_at := now }
           else w,
         true, true⟩
      | _ => ⟨.multipleMatches, db, true, false⟩

/-! ## delete-vehicle (src/unnamed/part_000) -/

structure DeleteVehicleArgs where
  vin : Option String := none
  stockNumber : Option String := none
  deriving Repr

/-- The lookup of delete-vehicle (lines 46-55): NO `deleted_at` filter,
only the vin/stockNumber chain. -/
def deleteVehiclePred (a : DeleteVehicleArgs) (v : Vehicle) : Bool :=
  if truthyS a.vin then v.vin == a.vin
  else if truthyS a.stockNumber then v.stock_number == a.stockNumber
  else true

inductive DeleteVehicleResult where
  /-- Line 36: neither vin nor stockNumber provided. -/
  | noIdentifier
  /-- Line 40: both provided. -/
  | ambiguousIdentifier
  /-- Line 66: no matching vehicle. -/
  | notFound
  /-- Line 70: multiple vehicles matched. -/
  | multipleMatches
  /-- Lines 86-91: the row was hard-deleted. -/
  | deleted (id : Int)
  deriving DecidableEq, Repr

structure DeleteVehicleOutcome where
  result : DeleteVehicleResult
  db : List Vehicle
  lookupPerformed : Bool
  mutationPerformed : Bool
  deriving DecidableEq, Repr

def deleteVehicle (a : DeleteVehicleArgs) (db : List Vehicle) :
    DeleteVehicleOutcome :=
  if !truthyS a.vin && !truthyS a.stockNumber then ⟨.noIdentifier, db, false, false⟩
  else if truthyS a.vin && truthyS a.stockNumber then
    ⟨.ambiguousIdentifier, db, false, false⟩
  else
    match db.filter (deleteVehiclePred a) with
    | [] => ⟨.notFound, db, true, false⟩
    | [v] =>
      ⟨.deleted v.id, db.filter (fun w => w.id != v.id), true, true⟩
    | _ => ⟨.multipleMatches, db, true, false⟩

/-! ## delete-ai-video (src/src/tools/delete-ai-video.ts) -/

structure DeleteAiVideoArgs where
  id : Option Int := none
  vin : Option String := none
  stockNumber : Option String := none
  deriving Repr

/-- The four Cloudflare R2 environment values (lines 75-78). -/
structure R2Creds where
  endpoint : Option String := none
  accessKeyId : Option String := none
  secretAccessKey : Option String := none
  bucketName : Option String := none
  deriving Repr

/-- Line 141: all four values truthily present. -/
def r2Configured (c : R2Creds) : Bool :=
  truthyS c.endpoint && truthyS c.accessKeyId
    && truthyS c.secretAccessKey && truthyS c.bucketName

/-- The three cleanup outcomes of lines 177-186. -/
inductive R2Outcome where
  | deleted
  | failed (err : String)
  | skipped
  deriving DecidableEq, Repr

/-- The lookup of delete-ai-video: soft-deleted rows excluded (line 96),
then the identifier chain. -/
def aivLookupPred (a : DeleteAiVideoArgs) (v : Vehicle) : Bool :=
  v.deleted_at.isNone && idLookupPred a.id a.vin a.stockNumber v

inductive DeleteAiVideoResult where
  /-- Line 83: no identifier provided. -/
  | noIdentifier
  /-- Line 87: more than one identifier provided. -/
  | ambiguousIdentifier
  /-- Line 116: no matching vehicle. -/
  | notFound
  /-- Line 120: multiple vehicles matched. -/
  | multipleMatches
  /-- Line 128: "does not have an AI video to delete." -/
  | noVideo
  /-- Line 133: no stock number, R2 path underivable. -/
  | noStockNumber
  /-- Lines 171-190: success; `prevUrl` the old `ai_video` value. -/
  | done (r2 : R2Outcome) (prevUrl : String)
  deriving DecidableEq, Repr

structure DeleteAiVideoOutcome where
  result : DeleteAiVideoResult
  db : List Vehicle
  lookupPerformed : Bool
  mutationPerformed : Bool
  r2Called : Bool
  /-- The object key passed to `DeleteObjectCommand`, when a call was made. -/
  r2Key : Option String
  deriving DecidableEq, Repr

/-- Tool deleteAiVideo.  The object store's behaviour is a parameter
`r2Behavior` (what `deleteFromR2` would report if invoked): `.ok ()` for
a successful deletion, `.error e` for a failure with message `e`.
-/
def deleteAiVideo (a : DeleteAiVideoArgs) (creds : R2Creds)
    (r2Behavior : Except String Unit) (now : String) (db : List Vehicle) :
    DeleteAiVideoOutcome :=
  if identCount a.id a.vin a.stockNumber == 0 then
    ⟨.noIdentifier, db, false, false, false, none⟩
  else if identCount a.id a.vin a.stockNumber > 1 then
    ⟨.ambiguousIdentifier, db, false, false, false, none⟩
  else
    match db.filter (aivLookupPred a) with
    | [] => ⟨.notFound, db, true, false, false, none⟩
    | [v] =>
      if !truthyS v.ai_video then ⟨.noVideo, db, true, false, false, none⟩
      else if !truthyS v.stock_number then
        ⟨.noStockNumber, db, true, false, false, none⟩
      else
        let objectKey := "vehicles/" ++ v.stock_number.getD "" ++ "/ai-video.mp4"
        let r2res : R2Outcome :=
          if r2Configured creds then
            match r2Behavior with
            | .ok _ => .deleted
            | .error e => .failed e
          else .skipped
        ⟨.done r2res (v.ai_video.getD ""),
         db.map fun w =>
           if w.id == v.id then { w with ai_video := none, updated_at := now }
           else w,
         true, true, r2Configured creds,
         if r2Configured creds then some objectKey else none⟩
    | _ => ⟨.multipleMatches, db, true, false, false, none⟩

/-- The response fragment reporting the object-cleanup outcome
(lines 177-186), verbatim from the source.
-/
def renderR2Outcome : R2Outcome → String
  | .deleted => "✅ File deleted from Cloudflare R2\n"
  | .failed e =>
    "⚠️  Warning: Could not delete file from Cloudflare R2: " ++ e ++ "\n"
      ++ "   (Database field has been set to null)\n"
  | .skipped =>
    "⚠️  Note: Cloudflare R2 credentials not configured. Only database field was updated.\n"

/-! ## Field selectors for the descriptive string filters of get-vehicles -/

/-- The eleven descriptive string filters of `get-vehicles`. -/
inductive StrFilterField where
  | makeF | modelF | colourF | interiorColorF | newUsedF | certifiedF
  | transmissionF | drivetrainF | fuelF | bodyF | dealerNameF
  deriving DecidableEq, Repr

/-- The request that supplies exactly one descriptive string filter. -/
def mkStrFilter : StrFilterField → String → GetVehiclesFilter
  | .makeF, s => { make := some s }
  | .modelF, s => { model := some s }
  | .colourF, s => { colour := some s }
  | .interiorColorF, s => { interiorColor := some s }
  | .newUsedF, s => { newUsed := some s }
  | .certifiedF, s => { certified := some s }
  | .transmissionF, s => { transmission := some s }
  | .drivetrainF, s => { drivetrain := some s }
  | .fuelF, s => { fuel := some s }
  | .bodyF, s => { body := some s }
  | .dealerNameF, s => { dealerName := some s }

/-- The column each descriptive string filter is matched against. -/
def strFieldCol : StrFilterField → Vehicle → Option String
  | .makeF, v => v.make
  | .modelF, v => v.model
  | .colourF, v => v.colour
  | .interiorColorF, v => v.interior_color
  | .newUsedF, v => v.new_used
  | .certifiedF, v => v.certified
  | .transmissionF, v => v.transmission
  | .drivetrainF, v => v.drivetrain_desc
  | .fuelF, v => v.fuel
  | .bodyF, v => v.body
  | .dealerNameF, v => v.dealer_name

/-! ## Concrete rows and requests for witnesses and counterexamples -/

/-- A representative visible row. -/
def baseCar : Vehicle :=
  { id := 1
    vin := some "WP0AB2A99EX000001"
    stock_number := some "S1"
    make := some "Ferrari"
    model := some "F8"
    year := some 2022
    price := some 300000
    custom_price := none
    colour := some "Red"
    interior_color := some "Black"
    description := none
    ai_description := none
    odometer := some 1200
    new_used := some "Used"
    certified := none
    transmission := none
    drivetrain_desc := none
    fuel := none
    body := some "Coupe"
    dealer_name := some "SportCarsLux"
    tags := none
    inventory_date := none
    notes := some "old note"
    ai_video := some "https://cdn.example/v1.mp4"
    updated_at := "2026-01-01"
    deleted_at := none }

/-- A soft-deleted row. -/
def softDeletedCar : Vehicle :=
  { baseCar with id := 9, vin := some "SOFTDELVIN", stock_number := some "S9",
                 deleted_at := some "2026-02-01" }

/-- An `update-vehicles` request supplying two identifiers (`id` and a
conflicting `vin`) plus one updatable field. -/
def twoIdArgs : UpdateVehiclesArgs :=
  { id := some 1, vin := some "SOMEOTHERVIN", price := some 100 }

/-- Two visible rows sharing one VIN (uniqueness is not enforced). -/
def dupVinCar1 : Vehicle := { baseCar with id := 1, vin := some "DUPVIN" }

def dupVinCar2 : Vehicle :=
  { baseCar with id := 2, vin := some "DUPVIN", stock_number := some "S2" }

/-- An `update-vehicles` request targeting that duplicated VIN. -/
def dupVinArgs : UpdateVehiclesArgs := { vin := some "DUPVIN", price := some 111 }

/-- An `update-vehicles` request supplying only `colour`, as the empty
string. -/
def emptyColourArgs : UpdateVehiclesArgs :=
  { id := some 1, colour := some "" }

/-- A batch `update-vehicles` request by make. -/
def raceArgs : UpdateVehiclesArgs := { make := some "Ferrari", price := some 500 }

/-- Row baseCar as it might look after the upstream sync rebranded it: it
no longer matches the `make=Ferrari` filter. -/
def raceCar1Changed : Vehicle := { baseCar with make := some "Porsche" }

/-- A row that matches the `make=Ferrari` filter but appeared only after
the lookup ran. -/
def raceCar2 : Vehicle :=
  { baseCar with id := 2, vin := some "NEWVIN2", stock_number := some "S2" }

/-- An `add-notes` request clearing the notes with an empty string. -/
def clearNotesArgs : AddNotesArgs := { id := some 1, notes := some (some "") }

/-- A fully configured set of R2 credentials. -/
def fullCreds : R2Creds :=
  { endpoint := some "https://r2.example", accessKeyId := some "AK",
    secretAccessKey := some "SK", bucketName := some "vehicles-bucket" }

/-- An `update-vehicles` request with a falsy `id` and a truthy `vin`. -/
def falsyIdArgs : UpdateVehiclesArgs :=
  { id := some 0, vin := some "VINX", price := some 1 }

/-! ## Helper lemmas -/

theorem truthyS_none_eq : truthyS none = false := rfl

theorem truthyI_none_eq : truthyI none = false := rfl

theorem truthyS_some_of_ne (s : String) (h : s ≠ "") : truthyS (some s) = true := by
  simp [truthyS, h]

/-! ## Claim theorems -/

/-- C3. Every lookup issued by get-vehicles, update-vehicles,
add-notes and delete-ai-video carries the `deleted_at IS NULL`
predicate, so a soft-deleted row never matches any of them (it is never
returned and never mutated); delete-vehicle's lookup does not consult
`deleted_at` at all, so it finds a row regardless of its soft-delete
state. -/
theorem soft_delete_visibility
    (f : GetVehiclesFilter) (a : UpdateVehiclesArgs) (b : AddNotesArgs)
    (c : DeleteAiVideoArgs) (v : Vehicle) (t : String)
    (h : v.deleted_at = some t) :
    getVehiclesMatch f v = false ∧
    updateLookupPred a v = false ∧
    addNotesLookupPred b v = false ∧
    aivLookupPred c v = false ∧
    ∀ (d : DeleteVehicleArgs) (t' : Option String),
      deleteVehiclePred d { v with deleted_at := t' } = deleteVehiclePred d v := by
  refine ⟨?_, ?_, ?_, ?_, fun d t' => rfl⟩ <;>
    simp [getVehiclesMatch, updateLookupPred, addNotesLookupPred, aivLookupPred, h]

/-- Witness for C3 at the concrete soft-deleted row. -/
theorem soft_delete_visibility_witness :
    getVehiclesMatch {} softDeletedCar = false ∧
    updateLookupPred {} softDeletedCar = false ∧
    addNotesLookupPred {} softDeletedCar = false ∧
    aivLookupPred {} softDeletedCar = false ∧
    ∀ (d : DeleteVehicleArgs) (t' : Option String),
      deleteVehiclePred d { softDeletedCar with deleted_at := t' }
        = deleteVehiclePred d softDeletedCar :=
  soft_delete_visibility {} {} {} {} softDeletedCar "2026-02-01" rfl

/-- C5. An update-vehicles request supplying none of the twelve
updatable fields is rejected as `noFields` before any store read or
write, the store is untouched, and its assignment set would indeed have
contained only `updated_at`. -/
theorem updateVehicles_noFields_rejected
    (a : UpdateVehiclesArgs) (now : String) (db : List Vehicle)
    (h1 : a.price = none) (h2 : a.customPrice = none) (h3 : a.colour = none)
    (h4 : a.interiorColor = none) (h5 : a.description = none)
    (h6 : a.aiDescription = none) (h7 : a.odometer = none)
    (h8 : a.newUsed = none) (h9 : a.certified = none)
    (h10 : a.dealerName = none) (h11 : a.tags = none)
    (h12 : a.inventoryDate = none) :
    (updateVehicles a now db).result = .noFields ∧
    (updateVehicles a now db).lookupPerformed = false ∧
    (updateVehicles a now db).mutationPerformed = false ∧
    (updateVehicles a now db).db = db ∧
    buildUpdateData a now = { updated_at := now } := by
  have hf : hasUpdateFields a = false := by
    simp [hasUpdateFields, h1, h2, h3, h4, h5, h6, h7, h8, h9, h10, h11, h12]
  refine ⟨?_, ?_, ?_, ?_, ?_⟩ <;>
    simp [updateVehicles, updateVehiclesRace, hf, buildUpdateData,
          h1, h2, h3, h4, h5, h6, h7, h8, h9, h10, h11, h12]

/-- Witness for C5: only an identifier supplied, no updatable field. -/
theorem updateVehicles_noFields_witness :
    (updateVehicles { id := some 5 } "T1" [baseCar]).result = .noFields ∧
    (updateVehicles { id := some 5 } "T1" [baseCar]).lookupPerformed = false ∧
    (updateVehicles { id := some 5 } "T1" [baseCar]).mutationPerformed = false ∧
    (updateVehicles { id := some 5 } "T1" [baseCar]).db = [baseCar] ∧
    buildUpdateData { id := some 5 } "T1" = { updated_at := "T1" } :=
  updateVehicles_noFields_rejected { id := some 5 } "T1" [baseCar]
    rfl rfl rfl rfl rfl rfl rfl rfl rfl rfl rfl rfl

/-- C7. Each descriptive string filter of get-vehicles matches by
case-insensitive substring containment (the ILIKE pattern wraps the
value in wildcards), not exact equality: in particular `make="ferrari"`
matches the stored value `"Ferrari"`, which exact equality would not. -/
theorem getVehicles_string_filter_ci_substring
    (fld : StrFilterField) (s : String) (hs : s ≠ "") (v : Vehicle) :
    (getVehiclesMatch (mkStrFilter fld s) v
      = (v.deleted_at.isNone && ilikeContains (strFieldCol fld v) s)) ∧
    (∀ pat stored : String,
      ilikeContains (some stored) pat = true ↔
        lowerData pat <:+: lowerData stored) ∧
    ilikeContains (some "Ferrari") "ferrari" = true ∧
    ("Ferrari" : String) ≠ "ferrari" := by
  have hts : truthyS (some s) = true := truthyS_some_of_ne s hs
  refine ⟨?_, ?_, ?_, ?_⟩
  · cases fld <;>
      simp [mkStrFilter, strFieldCol, getVehiclesMatch, hts,
            truthyS_none_eq, truthyI_none_eq]
  · intro pat stored; simp [ilikeContains]
  · decide
  · decide

/-- Witness for C7: the `make="ferrari"` filter against the stored value
`"Ferrari"`. -/
theorem getVehicles_string_filter_witness :
    (getVehiclesMatch (mkStrFilter .makeF "ferrari") baseCar
      = (baseCar.deleted_at.isNone
          && ilikeContains (strFieldCol .makeF baseCar) "ferrari")) ∧
    (∀ pat stored : String,
      ilikeContains (some stored) pat = true ↔
        lowerData pat <:+: lowerData stored) ∧
    ilikeContains (some "Ferrari") "ferrari" = true ∧
    ("Ferrari" : String) ≠ "ferrari" :=
  getVehicles_string_filter_ci_substring .makeF "ferrari" (by decide) baseCar

/-- C1 counterexample: update-vehicles called with both `id` and a
conflicting `vin` (plus a field to update) does not return an
ambiguity error: it resolves by `id` through the precedence chain,
issues the lookup and performs the update. -/
theorem updateVehicles_two_identifiers_counterexample :
    (updateVehicles twoIdArgs "T2" [baseCar]).result = .updated [1] ∧
    (updateVehicles twoIdArgs "T2" [baseCar]).lookupPerformed = true ∧
    (updateVehicles twoIdArgs "T2" [baseCar]).mutationPerformed = true := by
  decide

/-- C1 amended: add-notes, delete-ai-video and delete-vehicle
reject a request carrying two or more truthy identifier fields with the
ambiguous-identifier validation error before any store call;
update-vehicles instead resolves identifiers by strict precedence, a
truthy `id` short-circuiting past any vin/stockNumber/make/model also
supplied. -/
theorem ambiguous_identifier_rejected
    (b : AddNotesArgs) (c : DeleteAiVideoArgs) (d : DeleteVehicleArgs)
    (a : UpdateVehiclesArgs) (creds : R2Creds) (r2b : Except String Unit)
    (now : String) (db : List Vehicle) (v : Vehicle)
    (hb : 2 ≤ identCount b.id b.vin b.stockNumber)
    (hc : 2 ≤ identCount c.id c.vin c.stockNumber)
    (hd1 : truthyS d.vin = true) (hd2 : truthyS d.stockNumber = true)
    (ha : truthyI a.id = true) :
    (addNotes b now db).result = .ambiguousIdentifier ∧
    (addNotes b now db).lookupPerformed = false ∧
    (addNotes b now db).mutationPerformed = false ∧
    (deleteAiVideo c creds r2b now db).result = .ambiguousIdentifier ∧
    (deleteAiVideo c creds r2b now db).lookupPerformed = false ∧
    (deleteAiVideo c creds r2b now db).mutationPerformed = false ∧
    (deleteAiVideo c creds r2b now db).r2Called = false ∧
    (deleteVehicle d db).result = .ambiguousIdentifier ∧
    (deleteVehicle d db).lookupPerformed = false ∧
    (deleteVehicle d db).mutationPerformed = false ∧
    updateLookupPred a v = (v.deleted_at.isNone && v.id == a.id.getD 0) := by
  have hb0 : (identCount b.id b.vin b.stockNumber == 0) = false := by
    rw [beq_eq_false_iff_ne]; omega
  have hb1 : identCount b.id b.vin b.stockNumber > 1 := by omega
  have hc0 : (identCount c.id c.vin c.stockNumber == 0) = false := by
    rw [beq_eq_false_iff_ne]; omega
  have hc1 : identCount c.id c.vin c.stockNumber > 1 := by omega
  refine ⟨?_, ?_, ?_, ?_, ?_, ?_, ?_, ?_, ?_, ?_, ?_⟩ <;>
    simp [addNotes, deleteAiVideo, deleteVehicle, updateLookupPred,
          hb0, hb1, hc0, hc1, hd1, hd2, ha]

/-- Witness for the amended C1 at concrete two-identifier requests. -/
theorem ambiguous_identifier_witness :
    (addNotes { id := some 3, vin := some "V1", notes := some (some "x") }
        "T5" [baseCar]).result = .ambiguousIdentifier ∧
    (addNotes { id := some 3, vin := some "V1", notes := some (some "x") }
        "T5" [baseCar]).lookupPerformed = false ∧
    (addNotes { id := some 3, vin := some "V1", notes := some (some "x") }
        "T5" [baseCar]).mutationPerformed = false ∧
    (deleteAiVideo { vin := some "V1", stockNumber := some "S1" } {}
        (.ok ()) "T5" [baseCar]).result = .ambiguousIdentifier ∧
    (deleteAiVideo { vin := some "V1", stockNumber := some "S1" } {}
        (.ok ()) "T5" [baseCar]).lookupPerformed = false ∧
    (deleteAiVideo { vin := some "V1", stockNumber := some "S1" } {}
        (.ok ()) "T5" [baseCar]).mutationPerformed = false ∧
    (deleteAiVideo { vin := some "V1", stockNumber := some "S1" } {}
        (.ok ()) "T5" [baseCar]).r2Called = false ∧
    (deleteVehicle { vin := some "V1", stockNumber := some "S1" }
        [baseCar]).result = .ambiguousIdentifier ∧
    (deleteVehicle { vin := some "V1", stockNumber := some "S1" }
        [baseCar]).lookupPerformed = false ∧
    (deleteVehicle { vin := some "V1", stockNumber := some "S1" }
        [baseCar]).mutationPerformed = false ∧
    updateLookupPred twoIdArgs baseCar
      = (baseCar.deleted_at.isNone && baseCar.id == twoIdArgs.id.getD 0) :=
  ambiguous_identifier_rejected
    { id := some 3, vin := some "V1", notes := some (some "x") }
    { vin := some "V1", stockNumber := some "S1" }
    { vin := some "V1", stockNumber := some "S1" }
    twoIdArgs {} (.ok ()) "T5" [baseCar] baseCar
    (by decide) (by decide) (by decide) (by decide) (by decide)

/-- C2 counterexample: update-vehicles targeting the single
identifier `vin` that happens to match two rows does not abort with an
integrity error: it mutates both rows. -/
theorem updateVehicles_multiple_matches_counterexample :
    (updateVehicles dupVinArgs "T3" [dupVinCar1, dupVinCar2]).result
      = .updated [1, 2] ∧
    (updateVehicles dupVinArgs "T3" [dupVinCar1, dupVinCar2]).mutationPerformed
      = true ∧
    (updateVehicles dupVinArgs "T3" [dupVinCar1, dupVinCar2]).db
      = [applyUpdateData (buildUpdateData dupVinArgs "T3") dupVinCar1,
         applyUpdateData (buildUpdateData dupVinArgs "T3") dupVinCar2] := by
  decide

/-- C2 amended: For the single-row tools add-notes,
delete-ai-video and delete-vehicle, a lookup returning more than one row
aborts with the multiple-matches integrity error, leaving the store
untouched; update-vehicles has no such guard and mutates every matched
row. -/
theorem multiple_matches_abort (now : String) (db : List Vehicle) :
    (∀ (b : AddNotesArgs) (x y : Vehicle) (rest : List Vehicle),
      b.notes ≠ none →
      identCount b.id b.vin b.stockNumber = 1 →
      db.filter (addNotesLookupPred b) = x :: y :: rest →
      (addNotes b now db).result = .multipleMatches ∧
      (addNotes b now db).mutationPerformed = false ∧
      (addNotes b now db).db = db) ∧
    (∀ (c : DeleteAiVideoArgs) (creds : R2Creds) (r2b : Except String Unit)
        (x y : Vehicle) (rest : List Vehicle),
      identCount c.id c.vin c.stockNumber = 1 →
      db.filter (aivLookupPred c) = x :: y :: rest →
      (deleteAiVideo c creds r2b now db).result = .multipleMatches ∧
      (deleteAiVideo c creds r2b now db).mutationPerformed = false ∧
      (deleteAiVideo c creds r2b now db).r2Called = false ∧
      (deleteAiVideo c creds r2b now db).db = db) ∧
    (∀ (d : DeleteVehicleArgs) (x y : Vehicle) (rest : List Vehicle),
      (truthyS d.vin = true ∧ truthyS d.stockNumber = false ∨
        truthyS d.vin = false ∧ truthyS d.stockNumber = true) →
      db.filter (deleteVehiclePred d) = x :: y :: rest →
      (deleteVehicle d db).result = .multipleMatches ∧
      (deleteVehicle d db).mutationPerformed = false ∧
      (deleteVehicle d db).db = db) := by
  refine ⟨?_, ?_, ?_⟩
  · intro b x y rest hn hcount hfilter
    obtain ⟨na, hna⟩ := Option.ne_none_iff_exists'.mp hn
    have h0 : (identCount b.id b.vin b.stockNumber == 0) = false := by
      rw [beq_eq_false_iff_ne]; omega
    have h1 : ¬ identCount b.id b.vin b.stockNumber > 1 := by omega
    refine ⟨?_, ?_, ?_⟩ <;> simp [addNotes, h0, h1, hna, hfilter]
  · intro c creds r2b x y rest hcount hfilter
    have h0 : (identCount c.id c.vin c.stockNumber == 0) = false := by
      rw [beq_eq_false_iff_ne]; omega
    have h1 : ¬ identCount c.id c.vin c.stockNumber > 1 := by omega
    refine ⟨?_, ?_, ?_, ?_⟩ <;> simp [deleteAiVideo, h0, h1, hfilter]
  · intro d x y rest hd hfilter
    rcases hd with ⟨hv, hs⟩ | ⟨hv, hs⟩ <;>
      refine ⟨?_, ?_, ?_⟩ <;> simp [deleteVehicle, hv, hs, hfilter]

/-- Witness for the amended C2: a VIN shared by two rows aborts
add-notes, delete-ai-video and delete-vehicle. -/
theorem multiple_matches_abort_witness :
    (addNotes { vin := some "DUPVIN", notes := some (some "n") } "T8"
        [dupVinCar1, dupVinCar2]).result = .multipleMatches ∧
    (deleteAiVideo { vin := some "DUPVIN" } {} (.ok ()) "T8"
        [dupVinCar1, dupVinCar2]).result = .multipleMatches ∧
    (deleteVehicle { vin := some "DUPVIN" }
        [dupVinCar1, dupVinCar2]).result = .multipleMatches := by
  have h := multiple_matches_abort "T8" [dupVinCar1, dupVinCar2]
  exact ⟨(h.1 { vin := some "DUPVIN", notes := some (some "n") }
            dupVinCar1 dupVinCar2 [] (by decide) (by decide) (by decide)).1,
         (h.2.1 { vin := some "DUPVIN" } {} (.ok ())
            dupVinCar1 dupVinCar2 [] (by decide) (by decide)).1,
         (h.2.2 { vin := some "DUPVIN" }
            dupVinCar1 dupVinCar2 [] (by decide) (by decide)).1⟩

/-- C6 counterexample: update-vehicles supplied with `colour = ""`
does not normalize the empty string to a true null: the assignment set
carries the empty string and the row is written with `colour = some ""`.
-/
theorem updateVehicles_empty_string_counterexample :
    (buildUpdateData emptyColourArgs "T6").colour = some "" ∧
    (updateVehicles emptyColourArgs "T6" [baseCar]).result = .updated [1] ∧
    (updateVehicles emptyColourArgs "T6" [baseCar]).db
      = [{ baseCar with colour := some "", updated_at := "T6" }] := by
  decide

/-- C6 amended: add-notes normalizes notes supplied as null or as
the empty string to a true null before writing, so clearing and
emptying coincide there; in both update tools a field left unset never
enters the assignment set; but update-vehicles performs no empty-string
normalization — every supplied field enters the assignment set
verbatim. -/
theorem update_null_normalization
    (a : UpdateVehiclesArgs) (now : String) (b : AddNotesArgs)
    (db : List Vehicle) (v : Vehicle)
    (hcount : identCount b.id b.vin b.stockNumber = 1)
    (hfilter : db.filter (addNotesLookupPred b) = [v]) :
    ((b.notes = some none ∨ b.notes = some (some "")) →
      (addNotes b now db).result = .done "deleted" none ∧
      (addNotes b now db).db
        = db.map fun w =>
            if w.id == v.id then { w with notes := none, updated_at := now }
            else w) ∧
    (buildUpdateData a now).price = a.price ∧
    (buildUpdateData a now).custom_price = a.customPrice ∧
    (buildUpdateData a now).colour = a.colour ∧
    (buildUpdateData a now).interior_color = a.interiorColor ∧
    (buildUpdateData a now).description = a.description ∧
    (buildUpdateData a now).ai_description = a.aiDescription ∧
    (buildUpdateData a now).odometer = a.odometer ∧
    (buildUpdateData a now).new_used = a.newUsed ∧
    (buildUpdateData a now).certified = a.certified ∧
    (buildUpdateData a now).dealer_name = a.dealerName ∧
    (buildUpdateData a now).tags = a.tags ∧
    (buildUpdateData a now).inventory_date = a.inventoryDate := by
  have h0 : (identCount b.id b.vin b.stockNumber == 0) = false := by
    rw [beq_eq_false_iff_ne]; omega
  have h1 : ¬ identCount b.id b.vin b.stockNumber > 1 := by omega
  refine ⟨?_, rfl, rfl, rfl, rfl, rfl, rfl, rfl, rfl, rfl, rfl, rfl, rfl⟩
  intro hn
  rcases hn with hn | hn <;>
    exact ⟨by simp [addNotes, h0, h1, hn, hfilter],
           by simp [addNotes, h0, h1, hn, hfilter]⟩

/-- Witness for the amended C6: clearing notes with `""` writes null;
the `colour` assignment is copied verbatim from the request. -/
theorem update_null_normalization_witness :
    (addNotes clearNotesArgs "T7" [baseCar]).result = .done "deleted" none ∧
    (buildUpdateData emptyColourArgs "T7").colour = emptyColourArgs.colour := by
  have h := update_null_normalization emptyColourArgs "T7" clearNotesArgs
    [baseCar] baseCar (by decide) (by decide)
  exact ⟨(h.1 (Or.inr rfl)).1, h.2.2.2.1⟩

/-- C4. Whenever an update-vehicles invocation reaches the mutation
step, the update is applied to exactly the row-id set captured by the
preceding lookup (an id-membership predicate), never by re-applying the
original filter: a row whose id was captured is updated even if it no
longer matches the filter at mutation time, and a row that newly
matches the filter but whose id was not captured is left untouched. -/
theorem updateVehicles_race_safety
    (a : UpdateVehiclesArgs) (now : String) (db1 db2 : List Vehicle)
    (hm : (updateVehiclesRace a now db1 db2).mutationPerformed = true) :
    (updateVehiclesRace a now db1 db2).result
        = .updated ((db1.filter (updateLookupPred a)).map (·.id)) ∧
    (updateVehiclesRace a now db1 db2).db
        = db2.map (fun v =>
            if ((db1.filter (updateLookupPred a)).map (·.id)).contains v.id
            then applyUpdateData (buildUpdateData a now) v else v) ∧
    (∀ v ∈ db2,
      ((db1.filter (updateLookupPred a)).map (·.id)).contains v.id = false →
      v ∈ (updateVehiclesRace a now db1 db2).db) := by
  by_cases h1 : hasUpdateFields a = true
  case neg =>
    have h1' : hasUpdateFields a = false := by
      cases h : hasUpdateFields a
      · rfl
      · exact absurd h h1
    simp [updateVehiclesRace, h1'] at hm
  by_cases h2 : hasUpdateTarget a = true
  case neg =>
    have h2' : hasUpdateTarget a = false := by
      cases h : hasUpdateTarget a
      · rfl
      · exact absurd h h2
    simp [updateVehiclesRace, h1, h2'] at hm
  rcases hf : db1.filter (updateLookupPred a) with _ | ⟨x, xs⟩
  · simp [updateVehiclesRace, h1, h2, hf] at hm
  · refine ⟨?_, ?_, ?_⟩
    · simp [updateVehiclesRace, h1, h2, hf]
    · simp [updateVehiclesRace, h1, h2, hf]
    · intro v hv hc
      have hdb2 : (updateVehiclesRace a now db1 db2).db
          = db2.map (fun u =>
              if ((x :: xs).map (fun r => r.id)).contains u.id
              then applyUpdateData (buildUpdateData a now) u else u) := by
        simp [updateVehiclesRace, h1, h2, hf]
      rw [hdb2]
      have hcond : ¬ (((x :: xs).map (fun r => r.id)).contains v.id = true) := by
        intro hcon
        simp [hcon] at hc
        simp at hcon
        rcases hcon with h | ⟨u, hu, hui⟩
        · exact hc.1 h
        · exact hc.2 u hu hui
      refine List.mem_map.mpr ⟨v, hv, ?_⟩
      rw [if_neg hcond]

/-- Witness for C4: between the lookup (one Ferrari, id 1) and the
mutation the store changed — row 1 was rebranded Porsche and a new
Ferrari row 2 appeared; row 1 is still updated and row 2 untouched. -/
theorem updateVehicles_race_safety_witness :
    (updateVehiclesRace raceArgs "T9" [baseCar] [raceCar1Changed, raceCar2]).result
        = .updated (([baseCar].filter (updateLookupPred raceArgs)).map (·.id)) ∧
    raceCar2
      ∈ (updateVehiclesRace raceArgs "T9" [baseCar] [raceCar1Changed, raceCar2]).db := by
  have h := updateVehicles_race_safety raceArgs "T9" [baseCar]
    [raceCar1Changed, raceCar2] (by decide)
  exact ⟨h.1, h.2.2 raceCar2 (by decide) (by decide)⟩

/-- Nulling `ai_video` and stamping `updated_at` does not change whether
a row passes the delete-ai-video lookup predicate. -/
theorem aivLookupPred_null_video (a : DeleteAiVideoArgs) (i : Int)
    (now : String) (w : Vehicle) :
    aivLookupPred a
        (if w.id == i then { w with ai_video := none, updated_at := now } else w)
      = aivLookupPred a w := by
  by_cases h : (w.id == i) = true
  · rw [if_pos h]; rfl
  · rw [if_neg h]

/-- C8. delete-ai-video is idempotent: when a call reaches the
mutation (nulling the row's `ai_video`), a second call with the same
identifier short-circuits at the ai_video-is-null check with the
"nothing to delete" result, calling neither the object store nor the
database update, and leaving the store unchanged. -/
theorem deleteAiVideo_idempotent
    (a : DeleteAiVideoArgs) (creds creds2 : R2Creds)
    (r2b r2b2 : Except String Unit) (now now2 : String) (db : List Vehicle)
    (hm : (deleteAiVideo a creds r2b now db).mutationPerformed = true) :
    (deleteAiVideo a creds2 r2b2 now2
        (deleteAiVideo a creds r2b now db).db).result = .noVideo ∧
    (deleteAiVideo a creds2 r2b2 now2
        (deleteAiVideo a creds r2b now db).db).r2Called = false ∧
    (deleteAiVideo a creds2 r2b2 now2
        (deleteAiVideo a creds r2b now db).db).mutationPerformed = false ∧
    (deleteAiVideo a creds2 r2b2 now2
        (deleteAiVideo a creds r2b now db).db).db
      = (deleteAiVideo a creds r2b now db).db := by
  by_cases h0 : (identCount a.id a.vin a.stockNumber == 0) = true
  · simp [deleteAiVideo, h0] at hm
  by_cases h1 : identCount a.id a.vin a.stockNumber > 1
  · simp [deleteAiVideo, h0, h1] at hm
  rcases hf : db.filter (aivLookupPred a) with _ | ⟨v, _ | ⟨w, rest⟩⟩
  · simp [deleteAiVideo, h0, h1, hf] at hm
  · by_cases hvid : truthyS v.ai_video = true
    swap
    · simp [deleteAiVideo, h0, h1, hf, hvid] at hm
    by_cases hstk : truthyS v.stock_number = true
    swap
    · simp [deleteAiVideo, h0, h1, hf, hvid, hstk] at hm
    have hdb1 : (deleteAiVideo a creds r2b now db).db
        = db.map (fun w =>
            if w.id == v.id then { w with ai_video := none, updated_at := now }
            else w) := by
      simp [deleteAiVideo, h0, h1, hf, hvid, hstk]
    have hfilt2 : ((deleteAiVideo a creds r2b now db).db).filter (aivLookupPred a)
        = [{ v with ai_video := none, updated_at := now }] := by
      rw [hdb1, List.filter_map]
      have hcomp : (aivLookupPred a)
          ∘ (fun w =>
              if w.id == v.id then { w with ai_video := none, updated_at := now }
              else w)
          = aivLookupPred a :=
        funext fun w => aivLookupPred_null_video a v.id now w
      rw [hcomp, hf]
      simp
    generalize hD : (deleteAiVideo a creds r2b now db).db = D at hfilt2 ⊢
    refine ⟨?_, ?_, ?_, ?_⟩ <;>
      simp [deleteAiVideo, h0, h1, hfilt2, truthyS_none_eq]
  · simp [deleteAiVideo, h0, h1, hf] at hm

/-- Witness for C8: two consecutive delete-ai-video calls on row 1. -/
theorem deleteAiVideo_idempotent_witness :
    (deleteAiVideo { id := some 1 } {} (.ok ()) "TB"
        (deleteAiVideo { id := some 1 } {} (.ok ()) "TA" [baseCar]).db).result
      = .noVideo ∧
    (deleteAiVideo { id := some 1 } {} (.ok ()) "TB"
        (deleteAiVideo { id := some 1 } {} (.ok ()) "TA" [baseCar]).db).r2Called
      = false ∧
    (deleteAiVideo { id := some 1 } {} (.ok ()) "TB"
        (deleteAiVideo { id := some 1 } {} (.ok ()) "TA" [baseCar]).db).mutationPerformed
      = false ∧
    (deleteAiVideo { id := some 1 } {} (.ok ()) "TB"
        (deleteAiVideo { id := some 1 } {} (.ok ()) "TA" [baseCar]).db).db
      = (deleteAiVideo { id := some 1 } {} (.ok ()) "TA" [baseCar]).db :=
  deleteAiVideo_idempotent { id := some 1 } {} {} (.ok ()) (.ok ()) "TA" "TB"
    [baseCar] (by decide)

/-- C9. Once the identifier, visibility, ai_video and stock_number
checks pass, the database update nulling `ai_video` is performed under
all three object-cleanup outcomes — deletion succeeded, deletion
failed, and deletion skipped because R2 credentials are absent — and
the three outcomes render to pairwise distinct message fragments. -/
theorem deleteAiVideo_cleanup_decoupled
    (a : DeleteAiVideoArgs) (creds : R2Creds) (now : String)
    (db : List Vehicle) (v : Vehicle) (e : String)
    (hcount : identCount a.id a.vin a.stockNumber = 1)
    (hf : db.filter (aivLookupPred a) = [v])
    (hvid : truthyS v.ai_video = true)
    (hstk : truthyS v.stock_number = true) :
    (r2Configured creds = true →
      (deleteAiVideo a creds (.ok ()) now db).result
          = .done .deleted (v.ai_video.getD "") ∧
      (deleteAiVideo a creds (.ok ()) now db).mutationPerformed = true ∧
      (deleteAiVideo a creds (.ok ()) now db).r2Called = true ∧
      (deleteAiVideo a creds (.error e) now db).result
          = .done (.failed e) (v.ai_video.getD "") ∧
      (deleteAiVideo a creds (.error e) now db).mutationPerformed = true) ∧
    (r2Configured creds = false →
      ∀ r2b, (deleteAiVideo a creds r2b now db).result
          = .done .skipped (v.ai_video.getD "") ∧
        (deleteAiVideo a creds r2b now db).mutationPerformed = true ∧
        (deleteAiVideo a creds r2b now db).r2Called = false) ∧
    (∀ r2b, (deleteAiVideo a creds r2b now db).db
        = db.map fun w =>
            if w.id == v.id then { w with ai_video := none, updated_at := now }
            else w) ∧
    renderR2Outcome .deleted ≠ renderR2Outcome (.failed e) ∧
    renderR2Outcome .deleted ≠ renderR2Outcome .skipped ∧
    renderR2Outcome (.failed e) ≠ renderR2Outcome .skipped := by
  have h0 : (identCount a.id a.vin a.stockNumber == 0) = false := by
    rw [beq_eq_false_iff_ne]; omega
  have h1 : ¬ identCount a.id a.vin a.stockNumber > 1 := by omega
  refine ⟨?_, ?_, ?_, ?_, ?_, ?_⟩
  · intro hcfg
    refine ⟨?_, ?_, ?_, ?_, ?_⟩ <;>
      simp [deleteAiVideo, h0, h1, hf, hvid, hstk, hcfg]
  · intro hcfg r2b
    refine ⟨?_, ?_, ?_⟩ <;>
      simp [deleteAiVideo, h0, h1, hf, hvid, hstk, hcfg]
  · intro r2b
    simp [deleteAiVideo, h0, h1, hf, hvid, hstk]
  · intro h
    have h2 := congrArg (fun s => s.data.take 4) h
    simp only [renderR2Outcome, String.data_append, List.append_assoc] at h2
    rw [List.take_append_of_le_length (by decide)] at h2
    exact absurd h2 (by decide)
  · intro h
    exact absurd (congrArg (fun s => s.data.take 4) h) (by decide)
  · intro h
    have h2 := congrArg (fun s => s.data.take 8) h
    simp only [renderR2Outcome, String.data_append, List.append_assoc] at h2
    rw [List.take_append_of_le_length (by decide)] at h2
    exact absurd h2 (by decide)

/-- Witness for C9: row 1 with configured and with absent credentials. -/
theorem deleteAiVideo_cleanup_witness :
    (deleteAiVideo { id := some 1 } fullCreds (.ok ()) "TD" [baseCar]).result
      = .done .deleted (baseCar.ai_video.getD "") ∧
    (deleteAiVideo { id := some 1 } fullCreds (.error "boom") "TD" [baseCar]).result
      = .done (.failed "boom") (baseCar.ai_video.getD "") ∧
    (deleteAiVideo { id := some 1 } {} (.ok ()) "TD" [baseCar]).result
      = .done .skipped (baseCar.ai_video.getD "") ∧
    (deleteAiVideo { id := some 1 } {} (.ok ()) "TD" [baseCar]).mutationPerformed
      = true := by
  have h := deleteAiVideo_cleanup_decoupled { id := some 1 } fullCreds "TD"
    [baseCar] baseCar "boom" (by decide) (by decide) (by decide) (by decide)
  have h2 := deleteAiVideo_cleanup_decoupled { id := some 1 } ({} : R2Creds) "TD"
    [baseCar] baseCar "boom" (by decide) (by decide) (by decide) (by decide)
  exact ⟨(h.1 rfl).1, (h.1 rfl).2.2.2.1, (h2.2.1 rfl (.ok ())).1,
         (h2.2.1 rfl (.ok ())).2.1⟩

/-- C10. A falsy identifier value (`id = 0`, `vin = ""`,
`stockNumber = ""`) is treated exactly as an absent field by every
identifier-taking tool: each tool's outcome is unchanged when the falsy
value is replaced by an absent one; in particular add-notes and
delete-ai-video called with only `id = 0` return the no-identifier
error, and in update-vehicles' precedence chain a falsy `id` is skipped
in favour of a truthy `vin`. -/
theorem falsy_identifier_treated_as_absent
    (vin stock : Option String) (idv : Option Int)
    (nts : Option (Option String)) (now : String) (db db1 db2 : List Vehicle)
    (creds : R2Creds) (r2b : Except String Unit)
    (a : UpdateVehiclesArgs) (v : Vehicle) (s : String) (hs : s ≠ "") :
    addNotes { id := some 0, vin := vin, stockNumber := stock, notes := nts } now db
      = addNotes { id := none, vin := vin, stockNumber := stock, notes := nts } now db ∧
    addNotes { id := idv, vin := some "", stockNumber := stock, notes := nts } now db
      = addNotes { id := idv, vin := none, stockNumber := stock, notes := nts } now db ∧
    addNotes { id := idv, vin := vin, stockNumber := some "", notes := nts } now db
      = addNotes { id := idv, vin := vin, stockNumber := none, notes := nts } now db ∧
    deleteAiVideo { id := some 0, vin := vin, stockNumber := stock } creds r2b now db
      = deleteAiVideo { id := none, vin := vin, stockNumber := stock } creds r2b now db ∧
    deleteAiVideo { id := idv, vin := some "", stockNumber := stock } creds r2b now db
      = deleteAiVideo { id := idv, vin := none, stockNumber := stock } creds r2b now db ∧
    deleteAiVideo { id := idv, vin := vin, stockNumber := some "" } creds r2b now db
      = deleteAiVideo { id := idv, vin := vin, stockNumber := none } creds r2b now db ∧
    deleteVehicle { vin := some "", stockNumber := stock } db
      = deleteVehicle { vin := none, stockNumber := stock } db ∧
    deleteVehicle { vin := vin, stockNumber := some "" } db
      = deleteVehicle { vin := vin, stockNumber := none } db ∧
    updateVehiclesRace { a with id := some 0 } now db1 db2
      = updateVehiclesRace { a with id := none } now db1 db2 ∧
    (addNotes { id := some 0, notes := nts } now db).result = .noIdentifier ∧
    (deleteAiVideo { id := some 0 } creds r2b now db).result = .noIdentifier ∧
    (a.id = some 0 → a.vin = some s →
      updateLookupPred a v = (v.deleted_at.isNone && v.vin == some s)) := by
  refine ⟨rfl, rfl, rfl, rfl, rfl, rfl, rfl, rfl, rfl, rfl, rfl, ?_⟩
  intro ha1 ha2
  simp [updateLookupPred, ha1, ha2, truthyI, truthyS_some_of_ne s hs]

/-- Witness for C10 at concrete falsy identifiers. -/
theorem falsy_identifier_witness :
    (addNotes { id := some 0, notes := some (some "x") } "TC" [baseCar]).result
      = .noIdentifier ∧
    (deleteAiVideo { id := some 0 } {} (.ok ()) "TC" [baseCar]).result
      = .noIdentifier ∧
    updateLookupPred falsyIdArgs baseCar
      = (baseCar.deleted_at.isNone && baseCar.vin == some "VINX") := by
  have h := falsy_identifier_treated_as_absent none none none (some (some "x"))
    "TC" [baseCar] [baseCar] [baseCar] {} (.ok ()) falsyIdArgs baseCar "VINX"
    (by decide)
  exact ⟨h.2.2.2.2.2.2.2.2.2.1, h.2.2.2.2.2.2.2.2.2.2.1,
         h.2.2.2.2.2.2.2.2.2.2.2 rfl rfl⟩

end SportCars
